import Mathlib

/-!
Verification of the datawrapper MCP server core
(`src/datawrapper_mcp_server/server.py`): the request adapter
`_make_request`, the tool-level parameter construction of `export_chart`,
and the safe file writer `write_file`.

The Python code is shallowly embedded: `pathlib.Path` values become
`PyPath` (an absolute-flag plus the list of non-trivial components, exactly
pathlib's `parts` normal form: no empty, no "." components), the POSIX
filesystem becomes an association list from absolute component lists to
nodes (directory, file with byte content, or symbolic link), and the
effectful Python functions become pure functions threading the filesystem
state.  Path resolution (`Path.resolve`, strict resolution inside
`os.mkdir`) is modelled with an explicit step budget `fuel`: each consumed
component costs one unit, so a large enough budget reproduces the OS
behaviour, and budget exhaustion plays the role of the OS's symlink-loop
error (`ELOOP`).
-/

namespace DatawrapperMCP

/-- Byte strings are lists of naturals (each intended to be `< 256`). -/
abbrev Bytes := List Nat

/-- `leadsWith pat cs`: the character list `cs` starts with `pat`
(structural replacement for the corresponding core string function, so
that concrete witnesses evaluate inside the kernel). -/
def leadsWith : List Char → List Char → Bool
  | [], _ => true
  | _ :: _, [] => false
  | a :: as, b :: bs => a == b && leadsWith as bs

/-- Python `s.startswith(pat)`. -/
def strStartsWith (s pat : String) : Bool :=
  leadsWith pat.data s.data

/-- `occursIn sub cs`: `sub` occurs contiguously somewhere in `cs`. -/
def occursIn (sub : List Char) : List Char → Bool
  | [] => leadsWith sub []
  | c :: rest => leadsWith sub (c :: rest) || occursIn sub rest

/-- Python's `sub in s` substring test. -/
def strContains (s sub : String) : Bool :=
  occursIn sub.data s.data

/-- Python `s.lower()` (ASCII, as used on the literal format names). -/
def strToLower (s : String) : String :=
  ⟨s.data.map Char.toLower⟩

/-- A `pathlib` path on POSIX: the `absolute` flag is pathlib's root marker
and `parts` is the normalised component list (pathlib drops "." components
and empty components, and keeps ".." components). -/
structure PyPath where
  absolute : Bool
  parts : List String
deriving DecidableEq, Repr

/-- `Path.name`: the final path component, `""` when there is none
(pathlib returns `""` for `Path(".")` and `Path("/")`). -/
def PyPath.name (p : PyPath) : String :=
  (p.parts.getLast?).getD ""

/-- `str(path)` on POSIX: leading "/" for absolute paths, "." for the empty
relative path, components joined by "/". -/
def PyPath.toStr (p : PyPath) : String :=
  if p.absolute then "/" ++ String.intercalate "/" p.parts
  else if p.parts.isEmpty then "."
  else String.intercalate "/" p.parts

/-- `base / p` (pathlib `__truediv__`): an absolute right operand replaces
the left one, otherwise components are concatenated. -/
def joinPath (b p : PyPath) : PyPath :=
  if p.absolute then p else { absolute := b.absolute, parts := b.parts ++ p.parts }

/-- `path.parent`: drop the final component (lexical, as in pathlib). -/
def parentPath (p : PyPath) : PyPath :=
  { absolute := p.absolute, parts := p.parts.dropLast }

/-- A filesystem node: directory, regular file with contents, or symlink. -/
inductive Node where
  | dir
  | file (content : Bytes)
  | link (target : PyPath)
deriving DecidableEq, Repr

/-- The filesystem: an association list from absolute paths (component
lists) to nodes; the first matching entry wins, the root `[]` is
implicitly a directory. -/
abbrev FS := List (List String × Node)

/-- First-match lookup in the filesystem. -/
def FS.findNode (fs : FS) (p : List String) : Option Node :=
  match fs with
  | [] => none
  | (q, n) :: rest => if q = p then some n else FS.findNode rest p

/-- The symlink target stored at `q`, when the node there is a symlink. -/
def linkAt (fs : FS) (q : List String) : Option PyPath :=
  match FS.findNode fs q with
  | some (Node.link t) => some t
  | _ => none

/-- The file contents stored at `q`, when the node there is a file. -/
def fileAt (fs : FS) (q : List String) : Option Bytes :=
  match FS.findNode fs q with
  | some (Node.file c) => some c
  | _ => none

/-- Non-strict path resolution, the model of `Path.resolve()`: walk the
components left to right against the already-resolved prefix `cur`;
".." drops the last resolved component, an existing symlink is replaced by
its target, and any other component (existing or not) is appended.  Each
step consumes one unit of `fuel`; exhaustion models the OS symlink-loop
failure. -/
def resolveComps (fs : FS) : Nat → List String → List String → Option (List String)
  | _, cur, [] => some cur
  | 0, _, _ :: _ => none
  | fuel + 1, cur, c :: rest =>
    if c = ".." then resolveComps fs fuel cur.dropLast rest
    else
      match linkAt fs (cur ++ [c]) with
      | some t => resolveComps fs fuel (if t.absolute then [] else cur) (t.parts ++ rest)
      | none => resolveComps fs fuel (cur ++ [c]) rest

/-- `p.resolve()` for a `PyPath`: relative paths resolve against the
(already canonical) working directory `cwd`. -/
def resolvePath (fs : FS) (fuel : Nat) (cwd : List String) (p : PyPath) :
    Option (List String) :=
  resolveComps fs fuel (if p.absolute then [] else cwd) p.parts

/-- Errors of the modelled `os.mkdir` syscall. -/
inductive MkErr where
  | enoent
  | eexist
  | enotdir
  | eloop
deriving DecidableEq, Repr

/-- Strict resolution of a directory path, as the kernel performs on the
directory part of `mkdir`: every traversed component must exist as a
directory (or be a symlink leading to one). -/
def resolveStrictDir (fs : FS) : Nat → List String → List String → Except MkErr (List String)
  | _, cur, [] => Except.ok cur
  | 0, _, _ :: _ => Except.error MkErr.eloop
  | fuel + 1, cur, c :: rest =>
    if c = ".." then resolveStrictDir fs fuel cur.dropLast rest
    else
      match FS.findNode fs (cur ++ [c]) with
      | some Node.dir => resolveStrictDir fs fuel (cur ++ [c]) rest
      | some (Node.link t) =>
          resolveStrictDir fs fuel (if t.absolute then [] else cur) (t.parts ++ rest)
      | some (Node.file _) => Except.error MkErr.enotdir
      | none => Except.error MkErr.enoent

/-- The `os.mkdir` syscall: strictly resolve the directory part, then
create the final component, which must not already exist (the final
component is not followed through symlinks; a final ".." or an empty path
names an existing directory, hence `EEXIST`). -/
def osMkdir (fs : FS) (fuel : Nat) (cwd : List String) (p : PyPath) : Except MkErr FS :=
  match p.parts.getLast? with
  | none => Except.error MkErr.eexist
  | some c =>
    match resolveStrictDir fs fuel (if p.absolute then [] else cwd) p.parts.dropLast with
    | Except.error e => Except.error e
    | Except.ok d =>
      if c = ".." then Except.error MkErr.eexist
      else
        match FS.findNode fs (d ++ [c]) with
        | some _ => Except.error MkErr.eexist
        | none => Except.ok ((d ++ [c], Node.dir) :: fs)

/-- `path.is_dir()`: resolve fully (following symlinks) and check for a
directory; any resolution failure yields `false`. -/
def isDirPath (fs : FS) (fuel : Nat) (cwd : List String) (p : PyPath) : Bool :=
  match resolvePath fs fuel cwd p with
  | some r => r.isEmpty || decide (FS.findNode fs r = some Node.dir)
  | none => false

/-- `path.mkdir(parents=False, exist_ok=True)` (the retry step inside
pathlib's recursive mkdir): `ENOENT` propagates, any other `OSError` is
forgiven exactly when the path is a directory after resolution. -/
def mkdirRetry (fs : FS) (fuel : Nat) (cwd : List String) (p : PyPath) : Option FS :=
  match osMkdir fs fuel cwd p with
  | Except.ok fs' => some fs'
  | Except.error MkErr.enoent => none
  | Except.error _ => if isDirPath fs fuel cwd p then some fs else none

/-- `path.mkdir(parents=True, exist_ok=True)`, following pathlib: try the
syscall; on `FileNotFoundError` recursively create the lexical parent and
retry once; on any other `OSError` succeed exactly when the path is a
directory.  The recursion over lexical parents is bounded structurally by
`depth`; `mkdirParents` seeds it with the component count, which is exact
(the bound is never hit: a run out of components means the parent equals
the path itself, which pathlib treats as a hard failure, and at depth 0 the
`ENOENT` arm is unreachable anyway because `mkdir` of the root returns
`EEXIST`). -/
def mkdirParentsAux (fs : FS) (fuel : Nat) (cwd : List String) :
    Nat → PyPath → Option FS
  | 0, p =>
    match osMkdir fs fuel cwd p with
    | Except.ok fs' => some fs'
    | Except.error MkErr.enoent => none
    | Except.error _ => if isDirPath fs fuel cwd p then some fs else none
  | depth + 1, p =>
    match osMkdir fs fuel cwd p with
    | Except.ok fs' => some fs'
    | Except.error MkErr.enoent =>
      if p.parts = [] then none
      else
        match mkdirParentsAux fs fuel cwd depth (parentPath p) with
        | none => none
        | some fs1 => mkdirRetry fs1 fuel cwd p
    | Except.error _ => if isDirPath fs fuel cwd p then some fs else none

/-- `path.mkdir(parents=True, exist_ok=True)`. -/
def mkdirParents (fs : FS) (fuel : Nat) (cwd : List String) (p : PyPath) : Option FS :=
  mkdirParentsAux fs fuel cwd p.parts.length p

/-- Whether an optional node is a directory. -/
def isDirNode : Option Node → Bool
  | some Node.dir => true
  | _ => false

/-- Whether an optional node is a symlink. -/
def isLinkNode : Option Node → Bool
  | some (Node.link _) => true
  | _ => false

/-- `open(path, "wb")` followed by writing `content`: resolve the path, the
result must not name a directory (or an unresolved symlink), and its parent
must be an existing directory; the file node is created or overwritten. -/
def writeBytes (fs : FS) (fuel : Nat) (cwd : List String) (p : PyPath) (content : Bytes) :
    Option FS :=
  match resolvePath fs fuel cwd p with
  | none => none
  | some r =>
    if isDirNode (FS.findNode fs r) || isLinkNode (FS.findNode fs r) then none
    else if r.isEmpty then none
    else if r.dropLast.isEmpty || FS.findNode fs r.dropLast = some Node.dir then
      some ((r, Node.file content) :: fs)
    else none

/-- Reading back a file: resolve the path and return the file contents. -/
def readFile (fs : FS) (fuel : Nat) (cwd : List String) (p : PyPath) : Option Bytes :=
  match resolvePath fs fuel cwd p with
  | none => none
  | some r => fileAt fs r

/-- `base.is_relative_to(target)` on resolved absolute paths is a lexical
component-wise containment check; `partsUnder base target` states that
`target` is `base` itself or a descendant of it. -/
def partsUnder : List String → List String → Bool
  | [], _ => true
  | _ :: _, [] => false
  | a :: as, b :: bs => a == b && partsUnder as bs

/-- The error taxonomy of the modelled Python functions: `valueError`
carries the message of a `raise ValueError(...)`, `osError` stands for the
`OSError`s that `mkdir`/`resolve` can raise, `ioError` for the
`IOError` re-raised by `write_file`'s write step. -/
inductive PyErr where
  | valueError (msg : String)
  | osError
  | ioError (msg : String)
deriving DecidableEq, Repr

/-- `write_file(base_dir, file_path, content)` from `server.py` lines
86-121: reject an empty final component, reject a path whose string form
starts with "/" or "\", create `base_dir` and the target's parent
directory, then require the resolved target to be contained in the
resolved base, and finally write the bytes.  The returned filesystem
reflects the directory creations even on the error paths that follow
them. -/
def write_file (fs : FS) (fuel : Nat) (cwd : List String)
    (base_dir file_path : PyPath) (content : Bytes) : FS × Except PyErr PyPath :=
  if file_path.name = "" then
    (fs, Except.error (PyErr.valueError "Invalid file path: empty filename"))
  else if strStartsWith file_path.toStr "/" || strStartsWith file_path.toStr "\\" then
    (fs, Except.error (PyErr.valueError "Invalid file path: must be relative, not absolute"))
  else
    match mkdirParents fs fuel cwd base_dir with
    | none => (fs, Except.error PyErr.osError)
    | some fs1 =>
      match mkdirParents fs1 fuel cwd (parentPath (joinPath base_dir file_path)) with
      | none => (fs1, Except.error PyErr.osError)
      | some fs2 =>
        match resolvePath fs2 fuel cwd (joinPath base_dir file_path),
              resolvePath fs2 fuel cwd base_dir with
        | some rt, some rb =>
          if partsUnder rb rt then
            match writeBytes fs2 fuel cwd (joinPath base_dir file_path) content with
            | some fs3 => (fs3, Except.ok (joinPath base_dir file_path))
            | none => (fs2, Except.error (PyErr.ioError "Failed to write to file"))
          else
            (fs2, Except.error (PyErr.valueError
              ("Invalid path: " ++ file_path.toStr ++ " attempts to escape base directory")))
        | _, _ => (fs2, Except.error PyErr.osError)

/-! ## Request adapter (`_make_request`, lines 39-83) -/

/-- A scalar query/body parameter value as Python passes it around:
`vnull` is Python's `None`, `vnum` carries the decimal rendering of a
float. -/
inductive JVal where
  | vnull
  | vbool (b : Bool)
  | vint (i : Int)
  | vnum (render : String)
  | vstr (s : String)
deriving DecidableEq, Repr

/-- The `data` argument of `_make_request` is `Any`: the callers pass
either a string (raw CSV body in `upload_chart_data`) or a dict
(`create_chart`). -/
inductive DataArg where
  | dstr (s : String)
  | ddict (d : List (String × JVal))
deriving DecidableEq, Repr

/-- The request body httpx actually sends, after its body-kind selection. -/
inductive BodySent where
  | empty
  | raw (s : String)
  | multipart (formData : List (String × JVal)) (files : List (String × Bytes))
  | urlencoded (d : List (String × JVal))
  | jsonBody (d : List (String × JVal))
deriving DecidableEq, Repr

/-- httpx `encode_request(content=None, data, files, json)`: a non-dict
`data` becomes the raw body (deprecated path); otherwise a non-empty
`files` wins, then a non-empty `data` dict as urlencoded form, then
`json`.  Nothing fails when several kinds are populated: one is chosen
silently in this order. -/
def encodeBody (data : Option DataArg) (json_data : Option (List (String × JVal)))
    (files : Option (List (String × Bytes))) : BodySent :=
  match data with
  | some (DataArg.dstr s) => BodySent.raw s
  | _ =>
    let dd : List (String × JVal) :=
      match data with
      | some (DataArg.ddict d) => d
      | _ => []
    let jsonOr : BodySent :=
      match json_data with
      | some j => BodySent.jsonBody j
      | none => BodySent.empty
    match files with
    | some fl =>
      if fl.isEmpty then (if dd.isEmpty then jsonOr else BodySent.urlencoded dd)
      else BodySent.multipart dd fl
    | none => if dd.isEmpty then jsonOr else BodySent.urlencoded dd

/-- An outbound HTTP request as handed to `httpx.AsyncClient.request`. -/
structure HttpRequest where
  method : String
  url : String
  headers : List (String × String)
  params : Option (List (String × JVal))
  body : BodySent
deriving DecidableEq, Repr

/-- The pieces of an `httpx.Response` the adapter inspects. -/
structure Response where
  status : Nat
  contentType : String
  body : Bytes
  text : String
deriving DecidableEq, Repr

/-- The `httpx.HTTPStatusError` raised by `raise_for_status`: it carries
the response, in particular the numeric status and raw body. -/
structure RemoteErr where
  status : Nat
  body : Bytes
deriving DecidableEq, Repr

/-- Python dict assignment `d[k] = v`: replace in place when the key is
present, append otherwise. -/
def setKey (d : List (String × String)) (k v : String) : List (String × String) :=
  if d.any (fun kv => kv.1 == k) then
    d.map (fun kv => if kv.1 == k then (k, v) else kv)
  else d ++ [(k, v)]

/-- Dict lookup returning the first value stored under `k`. -/
def getKey : List (String × String) → String → Option String
  | [], _ => none
  | kv :: rest, k => if kv.1 == k then some kv.2 else getKey rest k

/-- Lookup in a parameter dict. -/
def lookupKey : List (String × JVal) → String → Option JVal
  | [], _ => none
  | kv :: rest, k => if kv.1 == k then some kv.2 else lookupKey rest k

def API_BASE_URL : String := "https://api.datawrapper.de/v3"

/-- Python `repr` of a string (single quotes, escaping elided). -/
def pyStr (s : String) : String := "\x27" ++ s ++ "\x27"

/-- Python `repr` of a `str -> str` dict. -/
def pyReprHeaders (hs : List (String × String)) : String :=
  "\x7b" ++ String.intercalate ", " (hs.map (fun kv => pyStr kv.1 ++ ": " ++ pyStr kv.2)) ++ "\x7d"

/-- Python `repr` of a scalar parameter value. -/
def pyReprJVal : JVal → String
  | JVal.vnull => "None"
  | JVal.vbool true => "True"
  | JVal.vbool false => "False"
  | JVal.vint i => toString i
  | JVal.vnum r => r
  | JVal.vstr s => pyStr s

/-- Python `repr` of an optional `str -> scalar` dict. -/
def pyReprParams : Option (List (String × JVal)) → String
  | none => "None"
  | some l =>
    "\x7b" ++ String.intercalate ", " (l.map (fun kv => pyStr kv.1 ++ ": " ++ pyReprJVal kv.2))
      ++ "\x7d"

/-- Python `repr` of the `data` argument. -/
def pyReprData : Option DataArg → String
  | none => "None"
  | some (DataArg.dstr s) => pyStr s
  | some (DataArg.ddict d) => pyReprParams (some d)

/-- Python `repr` of the `files` argument (file payloads rendered as byte
counts; only the shape matters to the log). -/
def pyReprFiles : Option (List (String × Bytes)) → String
  | none => "None"
  | some l =>
    "\x7b" ++ String.intercalate ", "
      (l.map (fun kv => pyStr kv.1 ++ ": <" ++ toString kv.2.length ++ " bytes>")) ++ "\x7d"

/-- The line `logger.info(request_params)` writes (line 68): the Python
`repr` of the `request_params` dict, headers included verbatim. -/
def requestLogLine (method url : String) (headers : List (String × String))
    (params : Option (List (String × JVal))) (data : Option DataArg)
    (json_data : Option (List (String × JVal))) (files : Option (List (String × Bytes))) :
    String :=
  "\x7b" ++ pyStr "method" ++ ": " ++ pyStr method
    ++ ", " ++ pyStr "url" ++ ": " ++ pyStr url
    ++ ", " ++ pyStr "headers" ++ ": " ++ pyReprHeaders headers
    ++ ", " ++ pyStr "params" ++ ": " ++ pyReprParams params
    ++ ", " ++ pyStr "data" ++ ": " ++ pyReprData data
    ++ ", " ++ pyStr "json" ++ ": " ++ pyReprParams json_data
    ++ ", " ++ pyStr "files" ++ ": " ++ pyReprFiles files
    ++ "\x7d"

/-- The response classification of lines 71-74: the body is treated as
binary when the content type is non-empty and contains `"image"` or
`"application/octet-stream"` as a substring. -/
def codeIsBinary (ct : String) : Bool :=
  (!(ct == "")) && (strContains ct "image" || strContains ct "application/octet-stream")

/-- The response log message of lines 71-77: length only for binary
bodies, the whole text otherwise. -/
def responseLogMessage (resp : Response) : String :=
  if codeIsBinary resp.contentType then
    "response: <binary data> [" ++ toString resp.body.length ++ " bytes]"
  else
    "response: " ++ resp.text

/-- `response.raise_for_status()`: any status outside 200-299 raises an
`HTTPStatusError` carrying the response. -/
def raiseForStatus (resp : Response) : Except RemoteErr Response :=
  if 200 ≤ resp.status && resp.status ≤ 299 then Except.ok resp
  else Except.error { status := resp.status, body := resp.body }

/-- The request `_make_request` builds before the single
`client.request(**request_params)` call: default the headers, overwrite
the `Authorization` entry with the bearer token, join the URL, pass the
params through unchanged, and let httpx pick the body kind. -/
def builtRequest (api_key method endpoint : String)
    (headers : Option (List (String × String))) (params : Option (List (String × JVal)))
    (data : Option DataArg) (json_data : Option (List (String × JVal)))
    (files : Option (List (String × Bytes))) : HttpRequest :=
  { method := method
    url := API_BASE_URL ++ "/" ++ endpoint
    headers := setKey (headers.getD []) "Authorization" ("Bearer " ++ api_key)
    params := params
    body := encodeBody data json_data files }

/-- The observable outcome of one `_make_request` call: the outbound
requests actually issued, the operational log lines produced, and the
returned response or raised status error. -/
structure MakeRequestResult where
  sent : List HttpRequest
  log : List String
  result : Except RemoteErr Response
deriving Repr

/-- `_make_request` (lines 39-83), with the network abstracted as a
`respond` oracle: build the request, log the request params, issue the
request exactly once, log the classified response, and raise on non-2xx
status. -/
def _make_request (api_key : String) (respond : HttpRequest → Response)
    (method endpoint : String) (headers : Option (List (String × String)))
    (params : Option (List (String × JVal))) (data : Option DataArg)
    (json_data : Option (List (String × JVal))) (files : Option (List (String × Bytes))) :
    MakeRequestResult :=
  let req := builtRequest api_key method endpoint headers params data json_data files
  let resp := respond req
  { sent := [req]
    log := [requestLogLine req.method req.url req.headers params data json_data files,
            responseLogMessage resp]
    result := raiseForStatus resp }

/-! ## `export_chart` query parameter construction (lines 195-212) -/

def optInt : Option Int → JVal
  | none => JVal.vnull
  | some i => JVal.vint i

def optStr : Option String → JVal
  | none => JVal.vnull
  | some s => JVal.vstr s

/-- The comprehension of line 212: drop every `None`-valued entry. -/
def dropNoneVals (l : List (String × JVal)) : List (String × JVal) :=
  l.filter (fun kv => kv.2 ≠ JVal.vnull)

/-- The `params` dict of `export_chart` (lines 195-212): the literal dict
in source order (with `transparent` nulled out for non-PNG formats),
followed by the drop-`None` comprehension. -/
def export_chart_params (format : String) (width height : Option Int) (unit mode : String)
    (scale zoom : String) (borderWidth : Option Int) (borderColor : Option String)
    (plain fullVector ligatures transparent : Bool) (logo : String)
    (logoId : Option String) (dark : Bool) : List (String × JVal) :=
  dropNoneVals
    [("width", optInt width),
     ("height", optInt height),
     ("unit", JVal.vstr unit),
     ("mode", JVal.vstr mode),
     ("scale", JVal.vnum scale),
     ("zoom", JVal.vnum zoom),
     ("borderWidth", optInt borderWidth),
     ("borderColor", optStr borderColor),
     ("plain", JVal.vbool plain),
     ("fullVector", JVal.vbool fullVector),
     ("ligatures", JVal.vbool ligatures),
     ("transparent", if strToLower format = "png" then JVal.vbool transparent else JVal.vnull),
     ("logo", JVal.vstr logo),
     ("logoId", optStr logoId),
     ("dark", JVal.vbool dark)]

/-- The `_make_request` call made by `export_chart` (line 214). -/
def export_chart_request (api_key : String) (respond : HttpRequest → Response)
    (chart_id format : String) (width height : Option Int) (unit mode : String)
    (scale zoom : String) (borderWidth : Option Int) (borderColor : Option String)
    (plain fullVector ligatures transparent : Bool) (logo : String)
    (logoId : Option String) (dark : Bool) : MakeRequestResult :=
  _make_request api_key respond "GET" ("charts/" ++ chart_id ++ "/export/" ++ format)
    none
    (some (export_chart_params format width height unit mode scale zoom borderWidth
      borderColor plain fullVector ligatures transparent logo logoId dark))
    none none none

/-! ## Helper lemmas about the filesystem model -/

/-- `fs'` refines `fs` without touching symlinks or file contents: all
resolution behaviour and all file reads agree. -/
def FSAgrees (fs fs' : FS) : Prop :=
  (∀ q, linkAt fs' q = linkAt fs q) ∧ (∀ q, fileAt fs' q = fileAt fs q)

theorem FSAgrees.refl (fs : FS) : FSAgrees fs fs :=
  ⟨fun _ => rfl, fun _ => rfl⟩

theorem FSAgrees.trans {fs1 fs2 fs3 : FS} (h12 : FSAgrees fs1 fs2) (h23 : FSAgrees fs2 fs3) :
    FSAgrees fs1 fs3 :=
  ⟨fun q => (h23.1 q).trans (h12.1 q), fun q => (h23.2 q).trans (h12.2 q)⟩

theorem findNode_cons (a : List String) (n : Node) (fs : FS) (q : List String) :
    FS.findNode ((a, n) :: fs) q = if a = q then some n else FS.findNode fs q := rfl

/-- Inserting a directory node at a previously unoccupied location leaves
symlinks and file contents unchanged. -/
theorem agrees_cons_dir {fs : FS} {p0 : List String} (h : FS.findNode fs p0 = none) :
    FSAgrees fs ((p0, Node.dir) :: fs) := by
  refine ⟨fun q => ?_, fun q => ?_⟩
  all_goals
    simp only [linkAt, fileAt, findNode_cons]
    by_cases hq : p0 = q
    · subst hq; simp [h]
    · simp [hq]

/-- Inserting a file node over a non-symlink location leaves all symlinks
unchanged (resolution is insensitive to it). -/
theorem linkAt_cons_file {fs : FS} {p0 : List String} {c : Bytes}
    (h : ∀ t, FS.findNode fs p0 ≠ some (Node.link t)) (q : List String) :
    linkAt ((p0, Node.file c) :: fs) q = linkAt fs q := by
  simp only [linkAt, findNode_cons]
  by_cases hq : p0 = q
  · subst hq
    rw [if_pos rfl]
    rcases hf : FS.findNode fs p0 with _ | n
    · rfl
    · cases n with
      | dir => rfl
      | file c0 => rfl
      | link t => exact absurd hf (h t)
  · rw [if_neg hq]

/-- Resolution only inspects symlinks, so it transfers along `linkAt`
agreement. -/
theorem resolveComps_congr {fs fs' : FS} (h : ∀ q, linkAt fs' q = linkAt fs q) :
    ∀ (fuel : Nat) (comps cur : List String),
      resolveComps fs' fuel cur comps = resolveComps fs fuel cur comps := by
  intro fuel
  induction fuel with
  | zero => intro comps cur; cases comps <;> rfl
  | succ n IH =>
    intro comps cur
    cases comps with
    | nil => rfl
    | cons c rest =>
      simp only [resolveComps]
      by_cases hc : c = ".."
      · rw [if_pos hc, if_pos hc]
        exact IH _ _
      · rw [if_neg hc, if_neg hc, h (cur ++ [c])]
        rcases linkAt fs (cur ++ [c]) with _ | t
        · exact IH _ _
        · exact IH _ _

theorem resolvePath_congr {fs fs' : FS} (h : ∀ q, linkAt fs' q = linkAt fs q)
    (fuel : Nat) (cwd : List String) (p : PyPath) :
    resolvePath fs' fuel cwd p = resolvePath fs fuel cwd p := by
  unfold resolvePath
  exact resolveComps_congr h fuel p.parts _

/-- A successful `os.mkdir` only inserts one directory node at a location
that was unoccupied. -/
theorem osMkdir_ok_agrees {fs fs' : FS} {fuel : Nat} {cwd : List String} {p : PyPath}
    (h : osMkdir fs fuel cwd p = Except.ok fs') : FSAgrees fs fs' := by
  unfold osMkdir at h
  split at h
  · cases h
  · split at h
    · cases h
    · split at h
      · cases h
      · split at h
        · cases h
        · rename_i hfind
          cases h
          exact agrees_cons_dir hfind

theorem mkdirRetry_agrees {fs fs' : FS} {fuel : Nat} {cwd : List String} {p : PyPath}
    (h : mkdirRetry fs fuel cwd p = some fs') : FSAgrees fs fs' := by
  unfold mkdirRetry at h
  split at h
  · rename_i hok
    cases h
    exact osMkdir_ok_agrees hok
  · cases h
  · split at h
    · cases h; exact FSAgrees.refl fs
    · cases h

theorem mkdirParentsAux_agrees :
    ∀ (depth : Nat) (p : PyPath) (fs fs' : FS) (fuel : Nat) (cwd : List String),
      mkdirParentsAux fs fuel cwd depth p = some fs' → FSAgrees fs fs' := by
  intro depth
  induction depth with
  | zero =>
    intro p fs fs' fuel cwd h
    unfold mkdirParentsAux at h
    split at h
    · rename_i f hok
      cases h
      exact osMkdir_ok_agrees hok
    · cases h
    · split at h
      · cases h; exact FSAgrees.refl fs
      · cases h
  | succ n IH =>
    intro p fs fs' fuel cwd h
    unfold mkdirParentsAux at h
    split at h
    · rename_i f hok
      cases h
      exact osMkdir_ok_agrees hok
    · split at h
      · cases h
      · split at h
        · cases h
        · rename_i fs1 hm
          exact (IH (parentPath p) fs fs1 fuel cwd hm).trans (mkdirRetry_agrees h)
    · split at h
      · cases h; exact FSAgrees.refl fs
      · cases h

/-- `mkdir -p` never changes symlinks or file contents. -/
theorem mkdirParents_agrees {fs fs' : FS} {fuel : Nat} {cwd : List String} {p : PyPath}
    (h : mkdirParents fs fuel cwd p = some fs') : FSAgrees fs fs' :=
  mkdirParentsAux_agrees p.parts.length p fs fs' fuel cwd h

theorem isLinkNode_false_ne_link {x : Option Node} (h : isLinkNode x = false) :
    ∀ t, x ≠ some (Node.link t) := by
  intro t hx
  subst hx
  simp [isLinkNode] at h

/-! ## Claim-level predicates for the safe file writer -/

/-- The traversal condition of the claims: joining the relative path with
the base directory and fully resolving it (symlinks and "`..`"/"." segments)
yields a path that is not the resolved base directory or a descendant of
it. -/
def escapesBase (fs : FS) (fuel : Nat) (cwd : List String) (base rel : PyPath) : Bool :=
  match resolvePath fs fuel cwd (joinPath base rel), resolvePath fs fuel cwd base with
  | some rt, some rb => !(partsUnder rb rt)
  | _, _ => false

/-- The two directory-creation steps of `write_file`, chained; success means
the filesystem cooperates (no file is in the way, no symlink loop). -/
def mkdirsOf (fs : FS) (fuel : Nat) (cwd : List String) (base rel : PyPath) : Option FS :=
  (mkdirParents fs fuel cwd base).bind
    (fun fs1 => mkdirParents fs1 fuel cwd (parentPath (joinPath base rel)))

/-- Everything a successful `write_file` call guarantees: the returned path
is the (unresolved) join of base and relative path, reading it back yields
exactly the written bytes, and its resolution is contained in the resolved
base directory. -/
theorem write_file_ok_spec (fs : FS) (fuel : Nat) (cwd : List String)
    (base_dir file_path : PyPath) (content : Bytes) (fs' : FS) (p : PyPath)
    (h : write_file fs fuel cwd base_dir file_path content = (fs', Except.ok p)) :
    p = joinPath base_dir file_path ∧
    readFile fs' fuel cwd p = some content ∧
    ∃ rt rb, resolvePath fs' fuel cwd p = some rt ∧
      resolvePath fs' fuel cwd base_dir = some rb ∧ partsUnder rb rt = true := by
  unfold write_file at h
  split at h
  · simp at h
  · split at h
    · simp at h
    · split at h
      · simp at h
      · rename_i fs1 hm1
        split at h
        · simp at h
        · rename_i fs2 hm2
          split at h
          · rename_i rt rb hrt hrb
            split at h
            · rename_i hpu
              split at h
              · rename_i fs3 hwb
                have hfs : fs3 = fs' := congrArg Prod.fst h
                have hp2 : Except.ok (joinPath base_dir file_path) = Except.ok p :=
                  congrArg Prod.snd h
                have hp' : p = joinPath base_dir file_path := by
                  injection hp2 with hh
                  exact hh.symm
                unfold writeBytes at hwb
                split at hwb
                · cases hwb
                · rename_i r hr
                  rw [hrt] at hr
                  injection hr with hrr
                  subst hrr
                  split at hwb
                  · cases hwb
                  · rename_i hnl
                    split at hwb
                    · cases hwb
                    · split at hwb
                      · injection hwb with hfs3
                        have hve : fs' = (rt, Node.file content) :: fs2 := by
                          rw [← hfs, ← hfs3]
                        subst hve
                        have hnl2 : isLinkNode (FS.findNode fs2 rt) = false := by
                          by_contra hcon
                          rw [Bool.not_eq_false] at hcon
                          exact hnl (by rw [hcon, Bool.or_true])
                        have hlink : ∀ q,
                            linkAt ((rt, Node.file content) :: fs2) q = linkAt fs2 q :=
                          linkAt_cons_file (isLinkNode_false_ne_link hnl2)
                        refine ⟨hp', ?_, rt, rb, ?_, ?_, hpu⟩
                        · rw [hp']
                          unfold readFile
                          rw [resolvePath_congr hlink, hrt]
                          simp [fileAt, findNode_cons]
                        · rw [hp', resolvePath_congr hlink]
                          exact hrt
                        · rw [resolvePath_congr hlink]
                          exact hrb
                      · cases hwb
              · simp at h
            · simp at h
          · simp at h

/-! ## Claims about the safe file writer -/

/-- C1.  For every call `write(baseDir, relativePath, content)` where the
relative path has an empty final component, or starts with "/" or "\", or
where joining it with the base directory and resolving symlinks and
"`..`"/"." segments yields a path that is not a descendant of (or equal to)
the resolved base directory, the call fails with the path `ValueError`
(`InvalidPathError`) and no file is written: the byte-writing step is never
reached and the file contents of the filesystem are unchanged.  (In the
traversal case the two directory-creation steps are assumed to succeed,
i.e. the filesystem itself does not fail first.) -/
theorem C1_traversal_rejected_no_write (fs : FS) (fuel : Nat) (cwd : List String)
    (base_dir file_path : PyPath) (content : Bytes)
    (h : file_path.name = "" ∨ strStartsWith file_path.toStr "/" = true ∨
      strStartsWith file_path.toStr "\\" = true ∨
      (escapesBase fs fuel cwd base_dir file_path = true ∧
        (mkdirsOf fs fuel cwd base_dir file_path).isSome = true)) :
    (∃ msg, (write_file fs fuel cwd base_dir file_path content).2 =
      Except.error (PyErr.valueError msg)) ∧
    ∀ q, fileAt (write_file fs fuel cwd base_dir file_path content).1 q = fileAt fs q := by
  by_cases hname : file_path.name = ""
  · have hw : write_file fs fuel cwd base_dir file_path content =
        (fs, Except.error (PyErr.valueError "Invalid file path: empty filename")) := by
      unfold write_file
      rw [if_pos hname]
    rw [hw]
    exact ⟨⟨_, rfl⟩, fun q => rfl⟩
  · by_cases habs : (strStartsWith file_path.toStr "/" || strStartsWith file_path.toStr "\\") = true
    · have hw : write_file fs fuel cwd base_dir file_path content =
          (fs, Except.error
            (PyErr.valueError "Invalid file path: must be relative, not absolute")) := by
        unfold write_file
        rw [if_neg hname, if_pos habs]
      rw [hw]
      exact ⟨⟨_, rfl⟩, fun q => rfl⟩
    · rcases h with h1 | h2 | h3 | ⟨hesc, hmk⟩
      · exact absurd h1 hname
      · exact absurd (by rw [h2, Bool.true_or]) habs
      · exact absurd (by rw [h3, Bool.or_true]) habs
      · rcases hm1 : mkdirParents fs fuel cwd base_dir with _ | fs1
        · rw [mkdirsOf, hm1] at hmk
          simp at hmk
        · rcases hm2 : mkdirParents fs1 fuel cwd
              (parentPath (joinPath base_dir file_path)) with _ | fs2
          · simp [mkdirsOf, hm1, hm2] at hmk
          · have hA : FSAgrees fs fs2 :=
              (mkdirParents_agrees hm1).trans (mkdirParents_agrees hm2)
            unfold escapesBase at hesc
            split at hesc
            · rename_i rt rb hrt hrb
              simp only [Bool.not_eq_true'] at hesc
              have hrt2 : resolvePath fs2 fuel cwd (joinPath base_dir file_path) = some rt := by
                rw [resolvePath_congr hA.1]
                exact hrt
              have hrb2 : resolvePath fs2 fuel cwd base_dir = some rb := by
                rw [resolvePath_congr hA.1]
                exact hrb
              have hw : write_file fs fuel cwd base_dir file_path content =
                  (fs2, Except.error (PyErr.valueError
                    ("Invalid path: " ++ file_path.toStr
                      ++ " attempts to escape base directory"))) := by
                unfold write_file
                rw [if_neg hname, if_neg habs]
                simp only [hm1, hm2, hrt2, hrb2, hesc]
                simp
              rw [hw]
              exact ⟨⟨_, rfl⟩, fun q => hA.2 q⟩
            · exact Bool.noConfusion hesc

/-- An empty base filesystem, an absolute base directory `/base`, and the
concrete relative paths exercised by the witnesses and counterexamples. -/
def baseP : PyPath := { absolute := true, parts := ["base"] }

def relTrav : PyPath := { absolute := false, parts := ["..", "secret.txt"] }

def relC10 : PyPath := { absolute := false, parts := ["..", "newdir", "f.txt"] }

def relC7 : PyPath := { absolute := false, parts := ["a", "..", "b.txt"] }

def relC6 : PyPath := { absolute := false, parts := ["sub", "dir", "out.png"] }

/-- Witness for C1 at the traversal input `../secret.txt` against base
`/base` on the empty filesystem. -/
theorem C1_traversal_rejected_no_write_witness :
    (escapesBase [] 16 [] baseP relTrav = true ∧
      (mkdirsOf [] 16 [] baseP relTrav).isSome = true) ∧
    (∃ msg, (write_file [] 16 [] baseP relTrav [1, 2]).2 =
      Except.error (PyErr.valueError msg)) ∧
    ∀ q, fileAt (write_file [] 16 [] baseP relTrav [1, 2]).1 q = fileAt ([] : FS) q :=
  ⟨⟨by decide, by decide⟩,
    C1_traversal_rejected_no_write [] 16 [] baseP relTrav [1, 2]
      (Or.inr (Or.inr (Or.inr ⟨by decide, by decide⟩)))⟩

/-- C6.  Every successful `write_file` call returns the join of the base
directory and the relative path, reading that returned path back yields
exactly the written bytes (the necessary directories exist, since the read
succeeds), and the resolved returned path is the resolved base directory
or a descendant of it. -/
theorem C6_valid_write_roundtrip (fs : FS) (fuel : Nat) (cwd : List String)
    (base_dir file_path : PyPath) (content : Bytes) (fs' : FS) (p : PyPath)
    (h : write_file fs fuel cwd base_dir file_path content = (fs', Except.ok p)) :
    p = joinPath base_dir file_path ∧
    readFile fs' fuel cwd p = some content ∧
    ∃ rt rb, resolvePath fs' fuel cwd p = some rt ∧
      resolvePath fs' fuel cwd base_dir = some rb ∧ partsUnder rb rt = true :=
  write_file_ok_spec fs fuel cwd base_dir file_path content fs' p h

/-- The filesystem produced by the C6 witness write: the nested
directories `sub/dir` were created and the file holds the written bytes. -/
def fsC6 : FS :=
  [(["base", "sub", "dir", "out.png"], Node.file [1, 2, 3]),
   (["base", "sub", "dir"], Node.dir),
   (["base", "sub"], Node.dir),
   (["base"], Node.dir)]

/-- Witness for C6: writing `sub/dir/out.png` (nested directories not yet
existing) under `/base` on the empty filesystem. -/
theorem C6_valid_write_roundtrip_witness :
    write_file [] 16 [] baseP relC6 [1, 2, 3] =
      (fsC6, Except.ok { absolute := true, parts := ["base", "sub", "dir", "out.png"] }) ∧
    (({ absolute := true, parts := ["base", "sub", "dir", "out.png"] } : PyPath) =
      joinPath baseP relC6 ∧
    readFile fsC6 16 [] { absolute := true, parts := ["base", "sub", "dir", "out.png"] } =
      some [1, 2, 3] ∧
    ∃ rt rb, resolvePath fsC6 16 []
        { absolute := true, parts := ["base", "sub", "dir", "out.png"] } = some rt ∧
      resolvePath fsC6 16 [] baseP = some rb ∧ partsUnder rb rt = true) :=
  ⟨rfl, C6_valid_write_roundtrip [] 16 [] baseP relC6 [1, 2, 3] fsC6
    { absolute := true, parts := ["base", "sub", "dir", "out.png"] } rfl⟩

/-- The property claim C7 asserts of the returned path, written from the
claim's words for comparison against the code: the returned path is the
canonical absolute path, i.e. it is absolute and already fully resolved
(resolution is the identity on it). -/
def isCanonicalReturn (fs : FS) (fuel : Nat) (cwd : List String) (p : PyPath) : Prop :=
  p.absolute = true ∧ resolvePath fs fuel cwd p = some p.parts

/-- The filesystem produced by the C7 counterexample write. -/
def fsC7 : FS :=
  [(["base", "b.txt"], Node.file [9, 9]),
   (["base", "a"], Node.dir),
   (["base"], Node.dir)]

/-- C7 counterexample: writing `a/../b.txt` under `/base` succeeds but
returns `/base/a/../b.txt` — the unresolved join, which still contains the
"`..`" segment and resolves to the different path `/base/b.txt` — so the
returned path is not the canonical absolute path of the file written. -/
theorem C7_counterexample :
    write_file [] 16 [] baseP relC7 [9, 9] =
      (fsC7, Except.ok { absolute := true, parts := ["base", "a", "..", "b.txt"] }) ∧
    ¬ isCanonicalReturn fsC7 16 [] { absolute := true, parts := ["base", "a", "..", "b.txt"] } := by
  refine ⟨rfl, fun hc => absurd hc.2 (by decide)⟩

/-- C7 amended: every successful `write_file` call returns the unresolved
join `base_dir / file_path` (the `target_path` of line 109), not its
canonical resolved form. -/
theorem C7_returns_unresolved_join (fs : FS) (fuel : Nat) (cwd : List String)
    (base_dir file_path : PyPath) (content : Bytes) (fs' : FS) (p : PyPath)
    (h : write_file fs fuel cwd base_dir file_path content = (fs', Except.ok p)) :
    p = joinPath base_dir file_path :=
  (write_file_ok_spec fs fuel cwd base_dir file_path content fs' p h).1

/-- Witness for the amended C7 at the concrete input `a/../b.txt`. -/
theorem C7_returns_unresolved_join_witness :
    ({ absolute := true, parts := ["base", "a", "..", "b.txt"] } : PyPath) =
      joinPath baseP relC7 :=
  C7_returns_unresolved_join [] 16 [] baseP relC7 [9, 9] fsC7
    { absolute := true, parts := ["base", "a", "..", "b.txt"] } rfl

/-- The filesystem after the C10 call: `newdir` was created outside
`/base` even though the call then failed. -/
def fsC10 : FS := [(["newdir"], Node.dir), (["base"], Node.dir)]

/-- C10.  On the traversal input `../newdir/f.txt`, `write_file` first
creates the parent directories of the unresolved join — here the directory
`/newdir`, which lies outside the base directory `/base` — and only then
fails the post-resolution containment check with the path `ValueError`;
no file node is created anywhere (every node of the final filesystem is a
directory). -/
theorem C10_mkdir_escapes_before_check :
    write_file [] 16 [] baseP relC10 [7] =
      (fsC10, Except.error (PyErr.valueError
        "Invalid path: ../newdir/f.txt attempts to escape base directory")) ∧
    FS.findNode fsC10 ["newdir"] = some Node.dir ∧
    partsUnder ["base"] ["newdir"] = false ∧
    fsC10.all (fun e => decide (e.2 = Node.dir)) = true :=
  ⟨rfl, rfl, rfl, rfl⟩

/-! ## Helper lemmas about dict operations -/

theorem getKey_map_set (k v : String) :
    ∀ (d : List (String × String)), d.any (fun kv => kv.1 == k) = true →
      getKey (d.map (fun kv => if kv.1 == k then (k, v) else kv)) k = some v := by
  intro d
  induction d with
  | nil => intro h; simp at h
  | cons a t IH =>
    intro h
    simp only [List.map_cons]
    by_cases ha : (a.1 == k) = true
    · rw [if_pos ha]
      simp [getKey]
    · rw [if_neg ha]
      simp only [List.any_cons, Bool.or_eq_true] at h
      rcases h with h | h
      · exact absurd h ha
      · unfold getKey
        rw [if_neg (by simp [ha])]
        exact IH h

theorem getKey_append_single (k v : String) :
    ∀ (d : List (String × String)), d.any (fun kv => kv.1 == k) = false →
      getKey (d ++ [(k, v)]) k = some v := by
  intro d
  induction d with
  | nil =>
    intro _
    simp [getKey]
  | cons a t IH =>
    intro h
    simp only [List.any_cons, Bool.or_eq_false_iff] at h
    rw [List.cons_append]
    unfold getKey
    rw [if_neg (by simp [h.1])]
    exact IH h.2

/-- Looking up the key just assigned by Python dict assignment returns the
assigned value: the old binding is gone. -/
theorem getKey_setKey (d : List (String × String)) (k v : String) :
    getKey (setKey d k v) k = some v := by
  unfold setKey
  by_cases h : d.any (fun kv => kv.1 == k) = true
  · rw [if_pos h]
    exact getKey_map_set k v d h
  · rw [if_neg h]
    exact getKey_append_single k v d (Bool.not_eq_true _ ▸ h)

/-- After the drop-`None` comprehension, a key all of whose bindings were
`None` is absent. -/
theorem lookupKey_dropNone_eq_none (k : String) :
    ∀ (l : List (String × JVal)), (∀ kv ∈ l, kv.1 = k → kv.2 = JVal.vnull) →
      lookupKey (dropNoneVals l) k = none := by
  intro l
  induction l with
  | nil => intro _; rfl
  | cons a t IH =>
    intro h
    unfold dropNoneVals at IH ⊢
    rw [List.filter_cons]
    by_cases hv : a.2 = JVal.vnull
    · rw [if_neg (by simp [hv])]
      exact IH (fun kv hkv => h kv (List.mem_cons_of_mem a hkv))
    · rw [if_pos (by simp [hv])]
      have ha : (a.1 == k) = false := by
        by_contra hcon
        rw [Bool.not_eq_false, beq_iff_eq] at hcon
        exact hv (h a (List.mem_cons_self a t) hcon)
      unfold lookupKey
      rw [if_neg (by simp [ha])]
      exact IH (fun kv hkv => h kv (List.mem_cons_of_mem a hkv))

/-- Boolean form of the previous lemma: the `all` premise evaluates by
computation on the semi-concrete params literal of `export_chart` (key
disequalities and constructor disequalities reduce definitionally even
with variable payloads). -/
theorem lookupKey_dropNone_allb (k : String) (l : List (String × JVal))
    (h : l.all (fun kv => !(kv.1 == k) || (kv.2 == JVal.vnull)) = true) :
    lookupKey (dropNoneVals l) k = none := by
  apply lookupKey_dropNone_eq_none
  intro kv hkv hk1
  have hall := List.all_eq_true.mp h kv hkv
  simp only [Bool.or_eq_true, Bool.not_eq_true', beq_iff_eq] at hall
  rcases hall with h1 | h2
  · exact absurd hk1 (by simpa using h1)
  · exact h2

/-- Every entry surviving the drop-`None` comprehension has a non-`None`
value. -/
theorem mem_dropNoneVals_ne_null (l : List (String × JVal)) (kv : String × JVal)
    (h : kv ∈ dropNoneVals l) : kv.2 ≠ JVal.vnull := by
  unfold dropNoneVals at h
  have h2 := (List.mem_filter.mp h).2
  simpa using h2

/-! ## Claims about the request adapter -/

def respOkText : Response :=
  { status := 200, contentType := "text/plain", body := [111, 107], text := "ok" }

def resp404 : Response :=
  { status := 404, contentType := "application/json", body := [101, 114, 114], text := "err" }

def respBin : Response :=
  { status := 200, contentType := "image/png", body := [1, 2, 3], text := "" }

/-- C2 (code bug evidence).  `_make_request` logs the full
`request_params` dict (line 68), and that dict's `headers` entry holds the
`Authorization` header; consequently the bearer token appears in plaintext
in the first operational log line of every send — here evaluated at the
token `SECRET123`, which occurs verbatim (as `Bearer SECRET123`) in the
logged line. -/
theorem C2_token_logged_in_plaintext :
    (_make_request "SECRET123" (fun _ => respOkText) "GET" "charts"
      none none none none none).log.headD "" =
      requestLogLine "GET" (API_BASE_URL ++ "/charts")
        [("Authorization", "Bearer SECRET123")] none none none none ∧
    strContains
      ((_make_request "SECRET123" (fun _ => respOkText) "GET" "charts"
        none none none none none).log.headD "")
      "Bearer SECRET123" = true :=
  ⟨rfl, by decide⟩

/-- C3.  For every request whose response status is not 2xx,
`_make_request` issues exactly one outbound request (there is no retry
anywhere in the function) and fails with the status error carrying the
numeric status and the raw response body. -/
theorem C3_non2xx_single_request_remote_error (api_key : String)
    (respond : HttpRequest → Response) (method endpoint : String)
    (headers : Option (List (String × String))) (params : Option (List (String × JVal)))
    (data : Option DataArg) (json_data : Option (List (String × JVal)))
    (files : Option (List (String × Bytes)))
    (h : (200 ≤ (respond (builtRequest api_key method endpoint headers params data
        json_data files)).status &&
      (respond (builtRequest api_key method endpoint headers params data
        json_data files)).status ≤ 299) = false) :
    (_make_request api_key respond method endpoint headers params data
      json_data files).sent.length = 1 ∧
    (_make_request api_key respond method endpoint headers params data
      json_data files).result = Except.error
      { status := (respond (builtRequest api_key method endpoint headers params data
          json_data files)).status,
        body := (respond (builtRequest api_key method endpoint headers params data
          json_data files)).body } := by
  refine ⟨rfl, ?_⟩
  show raiseForStatus (respond (builtRequest api_key method endpoint headers params data
    json_data files)) = _
  unfold raiseForStatus
  rw [h]
  rfl

/-- Witness for C3: a simulated 404 yields the status error with status
404 and the raw body after exactly one outbound request. -/
theorem C3_non2xx_single_request_remote_error_witness :
    (_make_request "K" (fun _ => resp404) "GET" "charts/abcde"
      none none none none none).sent.length = 1 ∧
    (_make_request "K" (fun _ => resp404) "GET" "charts/abcde"
      none none none none none).result = Except.error
      { status := resp404.status, body := resp404.body } :=
  C3_non2xx_single_request_remote_error "K" (fun _ => resp404) "GET" "charts/abcde"
    none none none none none (by decide)

/-- C4.  In `export_chart`, every optional parameter that is `None` is
dropped by the comprehension of line 212 before the request is sent: the
key is absent from the params dict of the outbound request (so it cannot
appear in the query string, not even with an empty value), and no key of
the sent dict carries a `None` value; `_make_request` passes the params
dict through unchanged. -/
theorem C4_null_params_omitted (api_key : String) (respond : HttpRequest → Response)
    (chart_id format : String) (width height : Option Int) (unit mode : String)
    (scale zoom : String) (borderWidth : Option Int) (borderColor : Option String)
    (plain fullVector ligatures transparent : Bool) (logo : String)
    (logoId : Option String) (dark : Bool) (ps : List (String × JVal))
    (hps : ps = export_chart_params format width height unit mode scale zoom borderWidth
      borderColor plain fullVector ligatures transparent logo logoId dark) :
    (export_chart_request api_key respond chart_id format width height unit mode scale zoom
      borderWidth borderColor plain fullVector ligatures transparent logo logoId
      dark).sent.map (fun q => q.params) = [some ps] ∧
    (width = none → lookupKey ps "width" = none) ∧
    (height = none → lookupKey ps "height" = none) ∧
    (borderWidth = none → lookupKey ps "borderWidth" = none) ∧
    (borderColor = none → lookupKey ps "borderColor" = none) ∧
    (logoId = none → lookupKey ps "logoId" = none) ∧
    (strToLower format ≠ "png" → lookupKey ps "transparent" = none) ∧
    (∀ kv ∈ ps, kv.2 ≠ JVal.vnull) := by
  subst hps
  refine ⟨rfl, ?_, ?_, ?_, ?_, ?_, ?_, ?_⟩
  · intro hw; subst hw
    unfold export_chart_params
    apply lookupKey_dropNone_allb
    rfl
  · intro hw; subst hw
    unfold export_chart_params
    apply lookupKey_dropNone_allb
    rfl
  · intro hw; subst hw
    unfold export_chart_params
    apply lookupKey_dropNone_allb
    rfl
  · intro hw; subst hw
    unfold export_chart_params
    apply lookupKey_dropNone_allb
    rfl
  · intro hw; subst hw
    unfold export_chart_params
    apply lookupKey_dropNone_allb
    rfl
  · intro hfmt
    unfold export_chart_params
    apply lookupKey_dropNone_allb
    rw [if_neg hfmt]
    rfl
  · intro kv hkv
    exact mem_dropNoneVals_ne_null _ kv hkv

/-- Witness for C4: exporting as PDF with every optional parameter absent;
none of the corresponding keys occurs in the params of the sent request. -/
theorem C4_null_params_omitted_witness :
    lookupKey (export_chart_params "pdf" none none "px" "rgb" "1.0" "2.0" none none
      false false true false "auto" none false) "width" = none ∧
    lookupKey (export_chart_params "pdf" none none "px" "rgb" "1.0" "2.0" none none
      false false true false "auto" none false) "borderColor" = none ∧
    lookupKey (export_chart_params "pdf" none none "px" "rgb" "1.0" "2.0" none none
      false false true false "auto" none false) "transparent" = none :=
  ⟨(C4_null_params_omitted "K" (fun _ => respOkText) "abcde" "pdf" none none "px" "rgb"
      "1.0" "2.0" none none false false true false "auto" none false _ rfl).2.1 rfl,
   (C4_null_params_omitted "K" (fun _ => respOkText) "abcde" "pdf" none none "px" "rgb"
      "1.0" "2.0" none none false false true false "auto" none false _ rfl).2.2.2.2.1 rfl,
   (C4_null_params_omitted "K" (fun _ => respOkText) "abcde" "pdf" none none "px" "rgb"
      "1.0" "2.0" none none false false true false "auto" none false _ rfl).2.2.2.2.2.2.1
      (by decide)⟩

/-- C5.  Whatever headers the caller supplies, the request actually sent
carries `Authorization: Bearer <token>`: line 55 overwrites any
caller-supplied Authorization entry before the send. -/
theorem C5_authorization_overwritten (api_key : String) (respond : HttpRequest → Response)
    (method endpoint : String) (headers : Option (List (String × String)))
    (params : Option (List (String × JVal))) (data : Option DataArg)
    (json_data : Option (List (String × JVal))) (files : Option (List (String × Bytes))) :
    (_make_request api_key respond method endpoint headers params data json_data
      files).sent.map (fun q => getKey q.headers "Authorization") =
      [some ("Bearer " ++ api_key)] := by
  show [getKey (setKey (headers.getD []) "Authorization" ("Bearer " ++ api_key))
    "Authorization"] = [some ("Bearer " ++ api_key)]
  rw [getKey_setKey]

/-- C8 counterexample: a request populating both a form-data dict and a
JSON body is sent anyway — exactly one outbound request, no error before
the send — with the form body silently chosen and the JSON dropped. -/
theorem C8_counterexample :
    (_make_request "K" (fun _ => respOkText) "POST" "charts" none none
      (some (DataArg.ddict [("title", JVal.vstr "T")]))
      (some [("folderId", JVal.vint 1)]) none).sent.map (fun q => q.body) =
      [BodySent.urlencoded [("title", JVal.vstr "T")]] ∧
    (_make_request "K" (fun _ => respOkText) "POST" "charts" none none
      (some (DataArg.ddict [("title", JVal.vstr "T")]))
      (some [("folderId", JVal.vint 1)]) none).result = Except.ok respOkText :=
  ⟨rfl, rfl⟩

/-- C8 amended: `_make_request` performs no body-kind exclusivity check;
when both a form dict and a JSON body are populated it silently sends one
request whose body follows httpx precedence: a non-empty `files` wins,
otherwise a non-empty form dict is sent urlencoded and the JSON body is
ignored. -/
theorem C8_silent_body_pick (api_key : String) (respond : HttpRequest → Response)
    (method endpoint : String) (headers : Option (List (String × String)))
    (params : Option (List (String × JVal))) (d : List (String × JVal))
    (j : List (String × JVal)) (fl : List (String × Bytes)) :
    ((_make_request api_key respond method endpoint headers params
        (some (DataArg.ddict d)) (some j) none).sent.map (fun q => q.body) =
      if d.isEmpty then [BodySent.jsonBody j] else [BodySent.urlencoded d]) ∧
    ((_make_request api_key respond method endpoint headers params
        (some (DataArg.ddict d)) (some j) (some fl)).sent.map (fun q => q.body) =
      if fl.isEmpty then
        (if d.isEmpty then [BodySent.jsonBody j] else [BodySent.urlencoded d])
      else [BodySent.multipart d fl]) := by
  constructor
  · show [encodeBody (some (DataArg.ddict d)) (some j) none] = _
    unfold encodeBody
    by_cases hd : d.isEmpty <;> simp [hd]
  · show [encodeBody (some (DataArg.ddict d)) (some j) (some fl)] = _
    unfold encodeBody
    by_cases hf : fl.isEmpty <;> by_cases hd : d.isEmpty <;> simp [hd, hf]

/-- The classification predicate claim C9 asserts, written from the
claim's words for comparison against the code: binary exactly when the
content type begins with `image/` or equals `application/octet-stream`. -/
def spec_is_binary (ct : String) : Bool :=
  strStartsWith ct "image/" || ct == "application/octet-stream"

/-- C9 counterexample: the content type `text/imagemap` neither begins
with `image/` nor equals `application/octet-stream`, yet the code
classifies it as binary (substring test on `"image"`) and logs only the
byte length for its body. -/
theorem C9_counterexample :
    codeIsBinary "text/imagemap" = true ∧
    spec_is_binary "text/imagemap" = false ∧
    responseLogMessage
      { status := 200, contentType := "text/imagemap", body := [104, 105], text := "hi" } =
      "response: <binary data> [2 bytes]" :=
  ⟨by decide, by decide, rfl⟩

/-- C9 amended: the adapter classifies a response as binary exactly when
the content type is non-empty and contains `"image"` or
`"application/octet-stream"` as a substring; in that case the response log
line (the last line logged by the send) carries only the body's byte
length, and in every other case it carries the entire response text,
untruncated and unmarked. -/
theorem C9_substring_classification_full_text_log (api_key : String)
    (respond : HttpRequest → Response) (method endpoint : String)
    (headers : Option (List (String × String))) (params : Option (List (String × JVal)))
    (data : Option DataArg) (json_data : Option (List (String × JVal)))
    (files : Option (List (String × Bytes))) :
    ((_make_request api_key respond method endpoint headers params data json_data
        files).log.getLast?.getD "" =
      responseLogMessage (respond (builtRequest api_key method endpoint headers params
        data json_data files))) ∧
    (codeIsBinary (respond (builtRequest api_key method endpoint headers params data
        json_data files)).contentType = true →
      responseLogMessage (respond (builtRequest api_key method endpoint headers params
        data json_data files)) =
        "response: <binary data> [" ++
          toString (respond (builtRequest api_key method endpoint headers params data
            json_data files)).body.length ++ " bytes]") ∧
    (codeIsBinary (respond (builtRequest api_key method endpoint headers params data
        json_data files)).contentType = false →
      responseLogMessage (respond (builtRequest api_key method endpoint headers params
        data json_data files)) =
        "response: " ++ (respond (builtRequest api_key method endpoint headers params
          data json_data files)).text) := by
  refine ⟨rfl, fun h => ?_, fun h => ?_⟩
  · unfold responseLogMessage
    rw [h]
    rfl
  · unfold responseLogMessage
    rw [h]
    rfl

/-- Witness for the amended C9: an `image/png` response is logged as
binary with its byte length only; a `text/plain` response is logged with
its full text. -/
theorem C9_substring_classification_full_text_log_witness :
    responseLogMessage respBin = "response: <binary data> [3 bytes]" ∧
    responseLogMessage respOkText = "response: ok" :=
  ⟨(C9_substring_classification_full_text_log "K" (fun _ => respBin) "GET" "e"
      none none none none none).2.1 (by decide),
   (C9_substring_classification_full_text_log "K" (fun _ => respOkText) "GET" "e"
      none none none none none).2.2 (by decide)⟩

end DatawrapperMCP
